import Mathlib

/-!
Verification of the blue-green deployment design of `cdk-ecs-blue-green`.

The repository's single source file, `packages/iac/lib/iac-stack.ts`, is a
declarative CDK stack: an ECS Fargate service with
`deploymentStrategy: BLUE_GREEN`, two ALB target groups (blue and green),
a production listener on port 80 and a test listener on port 8080, each with
a fixed-response 404 default action and one forwarding rule, plus the
service's alternate-target wiring.

Part 1 below embeds the declarative configuration literally from the source.
Part 2 models the runtime blue-green deployment protocol (RoutingTable,
BakeSupervisor, DeploymentController) from the specification, since the
runtime controller itself is provided by the ECS substrate, not by code under
this repository; those definitions carry `Modelled from the spec:` markers.
-/

namespace BlueGreen

/- ## Part 1: the declarative stack, embedded from `iac-stack.ts` -/

/-- A CDK `Duration`, in seconds (`cdk.Duration.minutes(n)` is `n * 60` seconds). -/
structure Duration where
  seconds : Nat
deriving DecidableEq, Repr

/-- `cdk.Duration.minutes`. -/
def Duration.minutes (n : Nat) : Duration := ⟨n * 60⟩

/-- ECS deployment strategies (`ecs.DeploymentStrategy`). -/
inductive DeploymentStrategy
  | ROLLING
  | BLUE_GREEN
deriving DecidableEq, Repr

/-- The `FargateService` properties set at `iac-stack.ts` lines 91-103
(fields without deployment-relevant content are omitted). -/
structure FargateServiceProps where
  desiredCount : Nat
  assignPublicIp : Bool
  deploymentStrategy : DeploymentStrategy
  bakeTime : Duration
deriving DecidableEq, Repr

/-- The ECS service declaration from `iac-stack.ts` lines 91-103. -/
def service : FargateServiceProps :=
  { desiredCount := 1
    assignPublicIp := false
    deploymentStrategy := .BLUE_GREEN
    bakeTime := Duration.minutes 2 }

/-- Health-check block of an ALB target group (`healthCheck` in the source). -/
structure HealthCheck where
  path : String
  port : String
  protocol : String
deriving DecidableEq, Repr

/-- An ALB target group as declared in the source: name, protocol, target
type and health check. -/
structure ApplicationTargetGroup where
  targetGroupName : String
  protocol : String
  targetType : String
  healthCheck : HealthCheck
deriving DecidableEq, Repr

/-- `AppTargetGroupBlue`, `iac-stack.ts` lines 123-137. -/
def appTargetGroupBlue : ApplicationTargetGroup :=
  { targetGroupName := "AppTargetGroupBlue"
    protocol := "HTTP"
    targetType := "IP"
    healthCheck := { path := "/", port := "80", protocol := "HTTP" } }

/-- `AppTargetGroupGreen`, `iac-stack.ts` lines 140-154. -/
def appTargetGroupGreen : ApplicationTargetGroup :=
  { targetGroupName := "AppTargetGroupGreen"
    protocol := "HTTP"
    targetType := "IP"
    healthCheck := { path := "/", port := "80", protocol := "HTTP" } }

/-- An ALB listener action: either a fixed HTTP response or forwarding to
target groups (identified by their names). -/
inductive ListenerAction
  | fixedResponse (statusCode : Nat) (contentType : String) (messageBody : String)
  | forward (targetGroups : List String)
deriving DecidableEq, Repr

/-- An ALB listener: port, protocol and default action. -/
structure Listener where
  port : Nat
  protocol : String
  defaultAction : ListenerAction
deriving DecidableEq, Repr

/-- A listener rule: owning listener port, priority, path-pattern conditions
and action. -/
structure ListenerRule where
  listenerPort : Nat
  priority : Nat
  pathPatterns : List String
  action : ListenerAction
deriving DecidableEq, Repr

/-- `AlbListener` (production listener, port 80), `iac-stack.ts` lines 157-164. -/
def albListener : Listener :=
  { port := 80
    protocol := "HTTP"
    defaultAction := .fixedResponse 404 "text/plain" "Not Found" }

/-- `AlbListenerRule` (production forwarding rule), `iac-stack.ts` lines 165-174. -/
def albListenerRule : ListenerRule :=
  { listenerPort := 80
    priority := 1
    pathPatterns := ["*"]
    action := .forward ["AppTargetGroupBlue"] }

/-- `AlbTestListener` (test listener, port 8080), `iac-stack.ts` lines 176-183. -/
def albTestListener : Listener :=
  { port := 8080
    protocol := "HTTP"
    defaultAction := .fixedResponse 404 "text/plain" "Not Found" }

/-- `AlbTestListenerRule` (test forwarding rule), `iac-stack.ts` lines 184-193. -/
def albTestListenerRule : ListenerRule :=
  { listenerPort := 8080
    priority := 1
    pathPatterns := ["*"]
    action := .forward ["AppTargetGroupGreen"] }

/-- The `AlternateTarget` configuration of `service.loadBalancerTarget`,
`iac-stack.ts` lines 195-211, and the primary attach at line 212. -/
structure AlternateTargetConfig where
  alternateTargetGroup : String
  productionListenerRule : ListenerRule
  testListenerRule : ListenerRule
deriving DecidableEq, Repr

/-- The alternate-target wiring from `iac-stack.ts` lines 195-211. -/
def alternateTarget : AlternateTargetConfig :=
  { alternateTargetGroup := "AppTargetGroupGreen"
    productionListenerRule := albListenerRule
    testListenerRule := albTestListenerRule }

/-- `target.attachToApplicationTargetGroup(appTargetGroupBlue)` at line 212:
the primary (initial production) target group of the service. -/
def primaryTargetGroup : String := "AppTargetGroupBlue"

/-- ALB path-pattern matching restricted to what the source uses: the
wildcard pattern `"*"` matches every path, any other pattern matches
exactly itself. -/
def matchesPattern (pat requestPath : String) : Bool :=
  pat = "*" || pat = requestPath

/-- Whether a listener rule matches a request path: some path-pattern
condition of the rule matches it. -/
def ruleMatches (rule : ListenerRule) (requestPath : String) : Bool :=
  rule.pathPatterns.any (fun pat => matchesPattern pat requestPath)

/-- ALB dispatch on one listener: the first rule (in priority order) whose
conditions match decides the action; with no matching rule the listener's
default action applies. -/
def dispatch (l : Listener) (rules : List ListenerRule) (requestPath : String) :
    ListenerAction :=
  match rules.find? (fun rule => ruleMatches rule requestPath) with
  | some rule => rule.action
  | none => l.defaultAction

/- ## Part 2: the runtime blue-green protocol, modelled from the spec

The controller, routing table and bake supervisor run inside the ECS
substrate; only their declaration is in this repository. The definitions
below are therefore modelled from the specification text (sections 4.1-4.5). -/

/-- Modelled from the spec: TargetPool lifecycle states (section 3). -/
inductive PoolState
  | provisioning
  | ready
  | active
  | draining
  | retired
deriving DecidableEq, Repr

/-- Modelled from the spec: an aggregate health verdict delivered by one
`HealthMonitor.check` poll; `monitorUnavailable` stands for the poll raising
`MonitorUnavailableError` (section 4.3). -/
inductive Verdict
  | healthy
  | unhealthy
  | monitorUnavailable
deriving DecidableEq, Repr

/-- Modelled from the spec: `BakeOutcome {Passed, Failed}` (section 4.4). -/
inductive BakeOutcome
  | Passed
  | Failed
deriving DecidableEq, Repr

/-- Modelled from the spec: `BakeSupervisor.supervise` (section 4.4). The
bake window is represented by the list of verdicts that the periodic
`HealthMonitor.check` polls would deliver over the full duration (one entry
per poll interval). Returns the outcome together with the number of polls
actually performed: the supervisor stops at the first non-healthy verdict
(fail-fast, fail-closed on `MonitorUnavailableError`) and only reaches the
end of the list when every poll was healthy. -/
def supervise : List Verdict → BakeOutcome × Nat
  | [] => (.Passed, 0)
  | v :: rest =>
    if v = .healthy then
      let r := supervise rest
      (r.1, r.2 + 1)
    else
      (.Failed, 1)

/-- Modelled from the spec: errors of `RoutingTable.bind` (section 4.2). -/
inductive BindError
  | RouteNotFoundError
  | InvalidTargetError
deriving DecidableEq, Repr

/-- Modelled from the spec: a RoutingTable, mapping route names to the pool
id each route is bound to (section 4.2: a production route and a test route,
each bound to exactly one TargetPool at a time). -/
structure RoutingTable where
  bindings : List (String × Nat)
deriving DecidableEq, Repr

/-- Modelled from the spec: `resolve(routeName) -> PoolId` — returns the
last successfully bound pool of the route, `none` for an unknown route. -/
def RoutingTable.resolve (rt : RoutingTable) (route : String) : Option Nat :=
  rt.bindings.lookup route

/-- Modelled from the spec: `bind(routeName, poolId)` (section 4.2).
Replaces the existing binding of the route in one atomic step (the whole
table is replaced at once; no intermediate table exists). Fails with
`RouteNotFoundError` for an unknown route and with `InvalidTargetError`
when the target pool is retired; `poolState` supplies each pool's current
lifecycle state. -/
def RoutingTable.bind (poolState : Nat → PoolState) (rt : RoutingTable)
    (route : String) (poolId : Nat) : Except BindError RoutingTable :=
  match rt.bindings.lookup route with
  | none => .error .RouteNotFoundError
  | some _ =>
    if poolState poolId = .retired then
      .error .InvalidTargetError
    else
      .ok ⟨rt.bindings.map (fun b => if b.1 = route then (b.1, poolId) else b)⟩

/-- Modelled from the spec: controller states of section 4.5. -/
inductive CtrlState
  | Idle
  | Provisioning
  | TestValidating
  | CuttingOver
  | Baking
  | Finalizing
  | RollingBack
deriving DecidableEq, Repr

/-- Modelled from the spec: final outcome of a deployment attempt
(section 3, DeploymentRecord). -/
inductive Outcome
  | finalized
  | rolledBack
  | aborted
deriving DecidableEq, Repr

/-- Modelled from the spec: the DeploymentRecord of one attempt (section 3):
previous and candidate pool, whether the candidate finished provisioning,
whether production was already cut over to the candidate, and the final
outcome once terminal. -/
structure DeploymentRecord where
  previous : Nat
  candidate : Nat
  provisioned : Bool
  cutOver : Bool
  outcome : Option Outcome
deriving DecidableEq, Repr

/-- Modelled from the spec: the whole observable system owned by one
DeploymentController — the pools with their lifecycle states, the routing
table, the controller state and the current deployment record. -/
structure Sys where
  pools : List (Nat × PoolState)
  rt : RoutingTable
  ctrl : CtrlState
  record : Option DeploymentRecord
deriving DecidableEq, Repr

/-- Lifecycle state of a pool; a pool id absent from the system is treated
as retired (it cannot be bound). -/
def Sys.poolStateOf (s : Sys) (p : Nat) : PoolState :=
  (s.pools.lookup p).getD .retired

/-- Modelled from the spec: `TargetPool.markState(id, state)` (section 4.1). -/
def Sys.setPool (s : Sys) (p : Nat) (st : PoolState) : Sys :=
  { s with pools := s.pools.map (fun b => if b.1 = p then (b.1, st) else b) }

/-- Whether any route of the table still references the pool. -/
def Sys.routeRefs (s : Sys) (p : Nat) : Bool :=
  s.rt.bindings.any (fun b => b.2 = p)

/-- Modelled from the spec: `TargetPool.retire(id)` (section 4.1) — fails
with `PoolInUseError` if any route still references the pool; the failure
leaves the pool untouched (section 7: surfaced to the operator, the state
machine proceeds). -/
def Sys.retirePool (s : Sys) (p : Nat) : Sys :=
  if s.routeRefs p then s else s.setPool p .retired

/-- `RoutingTable.bind` as a controller action: on success the table is
replaced atomically, on failure the system is left unchanged. -/
def Sys.bindRoute (s : Sys) (route : String) (p : Nat) : Sys :=
  match s.rt.bind s.poolStateOf route p with
  | .ok rt' => { s with rt := rt' }
  | .error _ => s

/-- Modelled from the spec: errors of the controller's `start` operation
(section 4.5: tie-break/edge policy). -/
inductive DeployError
  | DeploymentInProgressError
deriving DecidableEq, Repr

/-- Modelled from the spec: `start(spec)` (section 4.5). Rejected with
`DeploymentInProgressError` while the controller is in any non-Idle state,
leaving the system unchanged; otherwise creates the candidate pool (in
"provisioning"), opens a DeploymentRecord referencing the current production
pool as `previous`, and enters Provisioning. -/
def start (s : Sys) (candId : Nat) : Option DeployError × Sys :=
  if s.ctrl ≠ .Idle then
    (some .DeploymentInProgressError, s)
  else
    let prev := (s.rt.resolve "production").getD 0
    (none,
      { s with
        pools := (candId, .provisioning) :: s.pools
        ctrl := .Provisioning
        record := some ⟨prev, candId, false, false, none⟩ })

/-- Modelled from the spec: one deployment cycle's environment — whether
candidate provisioning succeeds, whether test-route validation passes, and
the verdicts the bake polls would observe (section 4.5 transition guards). -/
structure CycleEnv where
  provisionOk : Bool
  testHealthy : Bool
  bakeVerdicts : List Verdict
deriving DecidableEq, Repr

/-- Modelled from the spec: entry action of RollingBack (section 4.5):
rebind production to `previous` if already cut over; retire the candidate
if it was provisioned. -/
def enterRollingBack (s : Sys) (r : DeploymentRecord) : Sys :=
  let s1 := if r.cutOver then s.bindRoute "production" r.previous else s
  let s2 := if r.provisioned then s1.retirePool r.candidate else s1
  { s2 with ctrl := .RollingBack }

/-- Modelled from the spec: one transition of the DeploymentController state
machine (section 4.5 table). Each step performs the outgoing state's guard
and the entered state's entry action. -/
def step (env : CycleEnv) (s : Sys) : Sys :=
  match s.record with
  | none => s
  | some r =>
    match s.ctrl with
    | .Idle => s
    | .Provisioning =>
      if env.provisionOk then
        let s1 := s.setPool r.candidate .ready
        let s2 := { s1 with record := some { r with provisioned := true } }
        let s3 := s2.bindRoute "test" r.candidate
        { s3 with ctrl := .TestValidating }
      else
        enterRollingBack s r
    | .TestValidating =>
      if env.testHealthy then
        let s1 := s.bindRoute "production" r.candidate
        { s1 with ctrl := .CuttingOver, record := some { r with cutOver := true } }
      else
        enterRollingBack s r
    | .CuttingOver =>
      { s with ctrl := .Baking }
    | .Baking =>
      if (supervise env.bakeVerdicts).1 = .Passed then
        let s1 := s.retirePool r.previous
        { s1 with ctrl := .Finalizing }
      else
        enterRollingBack s r
    | .Finalizing =>
      { s with ctrl := .Idle, record := some { r with outcome := some .finalized } }
    | .RollingBack =>
      { s with ctrl := .Idle, record := some { r with outcome := some .rolledBack } }

/-- Iterate `step` n times. -/
def runSteps (env : CycleEnv) (s : Sys) : Nat → Sys
  | 0 => s
  | n + 1 => step env (runSteps env s n)

/-- Every cycle reaches Idle within 6 steps of `start` (the longest path
Provisioning, TestValidating, CuttingOver, Baking, Finalizing/RollingBack,
Idle has 5 transitions, and Idle is a fixed point), so the completed cycle
is the 6th iterate. -/
def runCycle (env : CycleEnv) (s : Sys) : Sys :=
  runSteps env s 6

/-- All states the system passes through during one cycle, starting from the
state produced by `start`. -/
def cycleStates (env : CycleEnv) (s : Sys) : List Sys :=
  (List.range 7).map (runSteps env s)

/-- Final outcome recorded by the cycle's DeploymentRecord. -/
def cycleOutcome (s : Sys) : Option Outcome :=
  s.record.bind (fun r => r.outcome)

/-- The routing invariant of the spec's data model, as a decidable check on a
system state: each route ("production" and "test") references exactly one
pool, and the pool the production route resolves to is not retired. -/
def routeInvariant (t : Sys) : Bool :=
  (t.rt.bindings.map Prod.fst == ["production", "test"]) &&
  (match t.rt.resolve "production" with
   | some pp => !(t.poolStateOf pp == PoolState.retired)
   | none => false) &&
  (t.rt.resolve "test").isSome

/- ## Part 3: supporting lemmas -/

theorem lookup_cons_eq {α β : Type} [BEq α] (k a : α) (b : β) (l : List (α × β)) :
    List.lookup k ((a, b) :: l) = if k == a then some b else List.lookup k l := by
  cases h : k == a <;> simp [List.lookup, h]

theorem lookup_update_ne {α β : Type} [DecidableEq α] [BEq α] [LawfulBEq α]
    (l : List (α × β)) (key k : α) (v : β) (h : k ≠ key) :
    (l.map (fun b => if b.1 = key then (b.1, v) else b)).lookup k = l.lookup k := by
  induction l with
  | nil => rfl
  | cons hd tl ih =>
    obtain ⟨a, b⟩ := hd
    have hne : (k == key) = false := beq_eq_false_iff_ne.mpr h
    by_cases hc : a = key
    · subst hc
      simp [lookup_cons_eq, hne, ih]
    · simp [lookup_cons_eq, if_neg hc, ih]

theorem lookup_update_self {α β : Type} [DecidableEq α] [BEq α] [LawfulBEq α]
    (l : List (α × β)) (key : α) (v : β) :
    (l.map (fun b => if b.1 = key then (b.1, v) else b)).lookup key =
      (l.lookup key).map (fun _ => v) := by
  induction l with
  | nil => rfl
  | cons hd tl ih =>
    obtain ⟨a, b⟩ := hd
    by_cases hc : a = key
    · subst hc
      simp [lookup_cons_eq, ih]
    · have hk : (key == a) = false := beq_eq_false_iff_ne.mpr (Ne.symm hc)
      simp [lookup_cons_eq, if_neg hc, hk, ih]

theorem update_idem {α β : Type} [DecidableEq α] (l : List (α × β)) (key : α) (v : β) :
    ((l.map (fun b => if b.1 = key then (b.1, v) else b)).map
      (fun b => if b.1 = key then (b.1, v) else b)) =
      l.map (fun b => if b.1 = key then (b.1, v) else b) := by
  induction l with
  | nil => rfl
  | cons hd tl ih =>
    obtain ⟨a, b⟩ := hd
    by_cases hc : a = key
    · subst hc
      simp [ih]
    · simp [if_neg hc, ih]

theorem start_of_idle (s : Sys) (p q cand : Nat)
    (hidle : s.ctrl = .Idle)
    (hb : s.rt.bindings = [("production", p), ("test", q)]) :
    start s cand =
      (none,
        { s with
          pools := (cand, .provisioning) :: s.pools
          ctrl := .Provisioning
          record := some ⟨p, cand, false, false, none⟩ }) := by
  simp [start, hidle, RoutingTable.resolve, hb, lookup_cons_eq]

theorem step_of_idle (env : CycleEnv) (t : Sys) (ht : t.ctrl = .Idle) :
    step env t = t := by
  cases hr : t.record <;> simp [step, ht, hr]

theorem step_of_provisioning_ok (env : CycleEnv) (s : Sys) (p q cand : Nat)
    (hb : s.rt.bindings = [("production", p), ("test", q)])
    (hprov : env.provisionOk = true) :
    step env
      { s with
        pools := (cand, .provisioning) :: s.pools
        ctrl := .Provisioning
        record := some ⟨p, cand, false, false, none⟩ } =
      { pools := (cand, .ready) ::
          s.pools.map (fun b => if b.1 = cand then (b.1, PoolState.ready) else b)
        rt := ⟨[("production", p), ("test", cand)]⟩
        ctrl := .TestValidating
        record := some ⟨p, cand, true, false, none⟩ } := by
  simp [step, hprov, Sys.setPool, Sys.bindRoute, Sys.poolStateOf, RoutingTable.bind,
    hb, lookup_cons_eq]

theorem step_of_provisioning_fail (env : CycleEnv) (s : Sys) (p cand : Nat)
    (hprov : env.provisionOk = false) :
    step env
      { s with
        pools := (cand, .provisioning) :: s.pools
        ctrl := .Provisioning
        record := some ⟨p, cand, false, false, none⟩ } =
      { s with
        pools := (cand, .provisioning) :: s.pools
        ctrl := .RollingBack
        record := some ⟨p, cand, false, false, none⟩ } := by
  simp [step, hprov, enterRollingBack]

theorem step_of_testValidating_ok (env : CycleEnv) (tl : List (Nat × PoolState))
    (p cand : Nat) (hth : env.testHealthy = true) :
    step env
      ⟨(cand, .ready) :: tl, ⟨[("production", p), ("test", cand)]⟩, .TestValidating,
        some ⟨p, cand, true, false, none⟩⟩ =
      ⟨(cand, .ready) :: tl, ⟨[("production", cand), ("test", cand)]⟩, .CuttingOver,
        some ⟨p, cand, true, true, none⟩⟩ := by
  simp [step, hth, Sys.bindRoute, Sys.poolStateOf, RoutingTable.bind, lookup_cons_eq]

theorem step_of_testValidating_fail (env : CycleEnv) (tl : List (Nat × PoolState))
    (p cand : Nat) (hth : env.testHealthy = false) :
    step env
      ⟨(cand, .ready) :: tl, ⟨[("production", p), ("test", cand)]⟩, .TestValidating,
        some ⟨p, cand, true, false, none⟩⟩ =
      ⟨(cand, .ready) :: tl, ⟨[("production", p), ("test", cand)]⟩, .RollingBack,
        some ⟨p, cand, true, false, none⟩⟩ := by
  simp [step, hth, enterRollingBack, Sys.retirePool, Sys.routeRefs]

theorem step_of_cuttingOver (env : CycleEnv) (t : Sys) (r : DeploymentRecord)
    (ht : t.ctrl = .CuttingOver) (hr : t.record = some r) :
    step env t = { t with ctrl := .Baking } := by
  simp [step, ht, hr]

theorem step_of_baking_passed (env : CycleEnv) (tl : List (Nat × PoolState))
    (p cand : Nat)
    (hsup : (supervise env.bakeVerdicts).1 = .Passed)
    (hpc : p ≠ cand) :
    step env
      ⟨(cand, .ready) :: tl, ⟨[("production", cand), ("test", cand)]⟩, .Baking,
        some ⟨p, cand, true, true, none⟩⟩ =
      ⟨(cand, .ready) :: tl.map (fun b => if b.1 = p then (b.1, PoolState.retired) else b),
        ⟨[("production", cand), ("test", cand)]⟩, .Finalizing,
        some ⟨p, cand, true, true, none⟩⟩ := by
  simp [step, hsup, Sys.retirePool, Sys.routeRefs, Sys.setPool, Ne.symm hpc, if_neg hpc]

theorem step_of_baking_failed (env : CycleEnv) (tl : List (Nat × PoolState))
    (p cand : Nat)
    (hsup : ¬(supervise env.bakeVerdicts).1 = .Passed)
    (hpc : p ≠ cand)
    (hple : tl.lookup p = some .active) :
    step env
      ⟨(cand, .ready) :: tl, ⟨[("production", cand), ("test", cand)]⟩, .Baking,
        some ⟨p, cand, true, true, none⟩⟩ =
      ⟨(cand, .ready) :: tl, ⟨[("production", p), ("test", cand)]⟩, .RollingBack,
        some ⟨p, cand, true, true, none⟩⟩ := by
  simp [step, hsup, enterRollingBack, Sys.bindRoute, Sys.poolStateOf, RoutingTable.bind,
    lookup_cons_eq, hpc, hple, Sys.retirePool, Sys.routeRefs]

theorem step_of_finalizing (env : CycleEnv) (t : Sys) (r : DeploymentRecord)
    (ht : t.ctrl = .Finalizing) (hr : t.record = some r) :
    step env t = { t with ctrl := .Idle, record := some { r with outcome := some .finalized } } := by
  simp [step, ht, hr]

theorem step_of_rollingBack (env : CycleEnv) (t : Sys) (r : DeploymentRecord)
    (ht : t.ctrl = .RollingBack) (hr : t.record = some r) :
    step env t = { t with ctrl := .Idle, record := some { r with outcome := some .rolledBack } } := by
  simp [step, ht, hr]

theorem range_seven : List.range 7 = [0, 1, 2, 3, 4, 5, 6] := by decide

/-- The full trace of a successful cycle: Provisioning, TestValidating,
CuttingOver, Baking, Finalizing, then Idle with outcome finalized; the
previous pool is retired in Finalizing and both routes end on the candidate. -/
theorem trace_success (s : Sys) (p q cand : Nat) (env : CycleEnv)
    (hidle : s.ctrl = .Idle)
    (hb : s.rt.bindings = [("production", p), ("test", q)])
    ( _hp : s.pools.lookup p = some .active)
    (hpc : p ≠ cand)
    (hprov : env.provisionOk = true)
    (hth : env.testHealthy = true)
    (hsup : (supervise env.bakeVerdicts).1 = .Passed) :
    cycleStates env (start s cand).2 =
      [{ s with
          pools := (cand, .provisioning) :: s.pools
          ctrl := .Provisioning
          record := some ⟨p, cand, false, false, none⟩ },
       ⟨(cand, .ready) :: s.pools.map (fun b => if b.1 = cand then (b.1, PoolState.ready) else b),
          ⟨[("production", p), ("test", cand)]⟩, .TestValidating, some ⟨p, cand, true, false, none⟩⟩,
       ⟨(cand, .ready) :: s.pools.map (fun b => if b.1 = cand then (b.1, PoolState.ready) else b),
          ⟨[("production", cand), ("test", cand)]⟩, .CuttingOver, some ⟨p, cand, true, true, none⟩⟩,
       ⟨(cand, .ready) :: s.pools.map (fun b => if b.1 = cand then (b.1, PoolState.ready) else b),
          ⟨[("production", cand), ("test", cand)]⟩, .Baking, some ⟨p, cand, true, true, none⟩⟩,
       ⟨(cand, .ready) ::
            ((s.pools.map (fun b => if b.1 = cand then (b.1, PoolState.ready) else b)).map
              (fun b => if b.1 = p then (b.1, PoolState.retired) else b)),
          ⟨[("production", cand), ("test", cand)]⟩, .Finalizing, some ⟨p, cand, true, true, none⟩⟩,
       ⟨(cand, .ready) ::
            ((s.pools.map (fun b => if b.1 = cand then (b.1, PoolState.ready) else b)).map
              (fun b => if b.1 = p then (b.1, PoolState.retired) else b)),
          ⟨[("production", cand), ("test", cand)]⟩, .Idle, some ⟨p, cand, true, true, some .finalized⟩⟩,
       ⟨(cand, .ready) ::
            ((s.pools.map (fun b => if b.1 = cand then (b.1, PoolState.ready) else b)).map
              (fun b => if b.1 = p then (b.1, PoolState.retired) else b)),
          ⟨[("production", cand), ("test", cand)]⟩, .Idle, some ⟨p, cand, true, true, some .finalized⟩⟩] ∧
    runCycle env (start s cand).2 =
      ⟨(cand, .ready) ::
          ((s.pools.map (fun b => if b.1 = cand then (b.1, PoolState.ready) else b)).map
            (fun b => if b.1 = p then (b.1, PoolState.retired) else b)),
        ⟨[("production", cand), ("test", cand)]⟩, .Idle, some ⟨p, cand, true, true, some .finalized⟩⟩ := by
  have e0 := start_of_idle s p q cand hidle hb
  have r0 : runSteps env (start s cand).2 0 =
      { s with
        pools := (cand, .provisioning) :: s.pools
        ctrl := .Provisioning
        record := some ⟨p, cand, false, false, none⟩ } := by
    rw [runSteps, e0]
  have r1 := step_of_provisioning_ok env s p q cand hb hprov
  have s1 : runSteps env (start s cand).2 1 =
      ⟨(cand, .ready) :: s.pools.map (fun b => if b.1 = cand then (b.1, PoolState.ready) else b),
        ⟨[("production", p), ("test", cand)]⟩, .TestValidating, some ⟨p, cand, true, false, none⟩⟩ := by
    rw [runSteps, r0, r1]
  have s2 : runSteps env (start s cand).2 2 =
      ⟨(cand, .ready) :: s.pools.map (fun b => if b.1 = cand then (b.1, PoolState.ready) else b),
        ⟨[("production", cand), ("test", cand)]⟩, .CuttingOver, some ⟨p, cand, true, true, none⟩⟩ := by
    rw [runSteps, s1, step_of_testValidating_ok env _ p cand hth]
  have s3 : runSteps env (start s cand).2 3 =
      ⟨(cand, .ready) :: s.pools.map (fun b => if b.1 = cand then (b.1, PoolState.ready) else b),
        ⟨[("production", cand), ("test", cand)]⟩, .Baking, some ⟨p, cand, true, true, none⟩⟩ := by
    rw [runSteps, s2, step_of_cuttingOver env _ ⟨p, cand, true, true, none⟩ rfl rfl]
  have s4 : runSteps env (start s cand).2 4 =
      ⟨(cand, .ready) ::
          ((s.pools.map (fun b => if b.1 = cand then (b.1, PoolState.ready) else b)).map
            (fun b => if b.1 = p then (b.1, PoolState.retired) else b)),
        ⟨[("production", cand), ("test", cand)]⟩, .Finalizing, some ⟨p, cand, true, true, none⟩⟩ := by
    rw [runSteps, s3, step_of_baking_passed env _ p cand hsup hpc]
  have s5 : runSteps env (start s cand).2 5 =
      ⟨(cand, .ready) ::
          ((s.pools.map (fun b => if b.1 = cand then (b.1, PoolState.ready) else b)).map
            (fun b => if b.1 = p then (b.1, PoolState.retired) else b)),
        ⟨[("production", cand), ("test", cand)]⟩, .Idle, some ⟨p, cand, true, true, some .finalized⟩⟩ := by
    rw [runSteps, s4, step_of_finalizing env _ ⟨p, cand, true, true, none⟩ rfl rfl]
  have s6 : runSteps env (start s cand).2 6 =
      ⟨(cand, .ready) ::
          ((s.pools.map (fun b => if b.1 = cand then (b.1, PoolState.ready) else b)).map
            (fun b => if b.1 = p then (b.1, PoolState.retired) else b)),
        ⟨[("production", cand), ("test", cand)]⟩, .Idle, some ⟨p, cand, true, true, some .finalized⟩⟩ := by
    rw [runSteps, s5, step_of_idle env _ rfl]
  refine ⟨?_, ?_⟩
  · rw [cycleStates, range_seven]
    simp only [List.map_cons, List.map_nil]
    rw [r0, s1, s2, s3, s4, s5, s6]
  · rw [runCycle, s6]

/-- The trace of a cycle whose candidate fails to provision: RollingBack is
a no-op (production was never touched) and the cycle ends rolled-back. -/
theorem trace_provision_fail (s : Sys) (p q cand : Nat) (env : CycleEnv)
    (hidle : s.ctrl = .Idle)
    (hb : s.rt.bindings = [("production", p), ("test", q)])
    (hprov : env.provisionOk = false) :
    cycleStates env (start s cand).2 =
      [{ s with
          pools := (cand, .provisioning) :: s.pools
          ctrl := .Provisioning
          record := some ⟨p, cand, false, false, none⟩ },
       { s with
          pools := (cand, .provisioning) :: s.pools
          ctrl := .RollingBack
          record := some ⟨p, cand, false, false, none⟩ },
       { s with
          pools := (cand, .provisioning) :: s.pools
          ctrl := .Idle
          record := some ⟨p, cand, false, false, some .rolledBack⟩ },
       { s with
          pools := (cand, .provisioning) :: s.pools
          ctrl := .Idle
          record := some ⟨p, cand, false, false, some .rolledBack⟩ },
       { s with
          pools := (cand, .provisioning) :: s.pools
          ctrl := .Idle
          record := some ⟨p, cand, false, false, some .rolledBack⟩ },
       { s with
          pools := (cand, .provisioning) :: s.pools
          ctrl := .Idle
          record := some ⟨p, cand, false, false, some .rolledBack⟩ },
       { s with
          pools := (cand, .provisioning) :: s.pools
          ctrl := .Idle
          record := some ⟨p, cand, false, false, some .rolledBack⟩ }] ∧
    runCycle env (start s cand).2 =
      { s with
        pools := (cand, .provisioning) :: s.pools
        ctrl := .Idle
        record := some ⟨p, cand, false, false, some .rolledBack⟩ } := by
  have e0 := start_of_idle s p q cand hidle hb
  have r0 : runSteps env (start s cand).2 0 =
      { s with
        pools := (cand, .provisioning) :: s.pools
        ctrl := .Provisioning
        record := some ⟨p, cand, false, false, none⟩ } := by
    rw [runSteps, e0]
  have s1 : runSteps env (start s cand).2 1 =
      { s with
        pools := (cand, .provisioning) :: s.pools
        ctrl := .RollingBack
        record := some ⟨p, cand, false, false, none⟩ } := by
    rw [runSteps, r0, step_of_provisioning_fail env s p cand hprov]
  have s2 : runSteps env (start s cand).2 2 =
      { s with
        pools := (cand, .provisioning) :: s.pools
        ctrl := .Idle
        record := some ⟨p, cand, false, false, some .rolledBack⟩ } := by
    rw [runSteps, s1, step_of_rollingBack env _ ⟨p, cand, false, false, none⟩ rfl rfl]
  have hfix : ∀ n, runSteps env (start s cand).2 (n + 2) =
      { s with
        pools := (cand, .provisioning) :: s.pools
        ctrl := .Idle
        record := some ⟨p, cand, false, false, some .rolledBack⟩ } := by
    intro n
    induction n with
    | zero => exact s2
    | succ m ih =>
      rw [show m + 1 + 2 = (m + 2) + 1 from rfl, runSteps, ih, step_of_idle env _ rfl]
  refine ⟨?_, ?_⟩
  · rw [cycleStates, range_seven]
    simp only [List.map_cons, List.map_nil]
    rw [r0, s1, hfix 0, hfix 1, hfix 2, hfix 3, hfix 4]
  · rw [runCycle, hfix 4]

/-- The trace of a cycle whose test-route validation fails: the candidate
was provisioned and bound to the test route, production is untouched, and
the cycle ends rolled-back (the candidate cannot be retired while the test
route still references it). -/
theorem trace_test_fail (s : Sys) (p q cand : Nat) (env : CycleEnv)
    (hidle : s.ctrl = .Idle)
    (hb : s.rt.bindings = [("production", p), ("test", q)])
    (hprov : env.provisionOk = true)
    (hth : env.testHealthy = false) :
    cycleStates env (start s cand).2 =
      [{ s with
          pools := (cand, .provisioning) :: s.pools
          ctrl := .Provisioning
          record := some ⟨p, cand, false, false, none⟩ },
       ⟨(cand, .ready) :: s.pools.map (fun b => if b.1 = cand then (b.1, PoolState.ready) else b),
          ⟨[("production", p), ("test", cand)]⟩, .TestValidating, some ⟨p, cand, true, false, none⟩⟩,
       ⟨(cand, .ready) :: s.pools.map (fun b => if b.1 = cand then (b.1, PoolState.ready) else b),
          ⟨[("production", p), ("test", cand)]⟩, .RollingBack, some ⟨p, cand, true, false, none⟩⟩,
       ⟨(cand, .ready) :: s.pools.map (fun b => if b.1 = cand then (b.1, PoolState.ready) else b),
          ⟨[("production", p), ("test", cand)]⟩, .Idle, some ⟨p, cand, true, false, some .rolledBack⟩⟩,
       ⟨(cand, .ready) :: s.pools.map (fun b => if b.1 = cand then (b.1, PoolState.ready) else b),
          ⟨[("production", p), ("test", cand)]⟩, .Idle, some ⟨p, cand, true, false, some .rolledBack⟩⟩,
       ⟨(cand, .ready) :: s.pools.map (fun b => if b.1 = cand then (b.1, PoolState.ready) else b),
          ⟨[("production", p), ("test", cand)]⟩, .Idle, some ⟨p, cand, true, false, some .rolledBack⟩⟩,
       ⟨(cand, .ready) :: s.pools.map (fun b => if b.1 = cand then (b.1, PoolState.ready) else b),
          ⟨[("production", p), ("test", cand)]⟩, .Idle, some ⟨p, cand, true, false, some .rolledBack⟩⟩] ∧
    runCycle env (start s cand).2 =
      ⟨(cand, .ready) :: s.pools.map (fun b => if b.1 = cand then (b.1, PoolState.ready) else b),
        ⟨[("production", p), ("test", cand)]⟩, .Idle, some ⟨p, cand, true, false, some .rolledBack⟩⟩ := by
  have e0 := start_of_idle s p q cand hidle hb
  have r0 : runSteps env (start s cand).2 0 =
      { s with
        pools := (cand, .provisioning) :: s.pools
        ctrl := .Provisioning
        record := some ⟨p, cand, false, false, none⟩ } := by
    rw [runSteps, e0]
  have s1 : runSteps env (start s cand).2 1 =
      ⟨(cand, .ready) :: s.pools.map (fun b => if b.1 = cand then (b.1, PoolState.ready) else b),
        ⟨[("production", p), ("test", cand)]⟩, .TestValidating, some ⟨p, cand, true, false, none⟩⟩ := by
    rw [runSteps, r0, step_of_provisioning_ok env s p q cand hb hprov]
  have s2 : runSteps env (start s cand).2 2 =
      ⟨(cand, .ready) :: s.pools.map (fun b => if b.1 = cand then (b.1, PoolState.ready) else b),
        ⟨[("production", p), ("test", cand)]⟩, .RollingBack, some ⟨p, cand, true, false, none⟩⟩ := by
    rw [runSteps, s1, step_of_testValidating_fail env _ p cand hth]
  have s3 : runSteps env (start s cand).2 3 =
      ⟨(cand, .ready) :: s.pools.map (fun b => if b.1 = cand then (b.1, PoolState.ready) else b),
        ⟨[("production", p), ("test", cand)]⟩, .Idle, some ⟨p, cand, true, false, some .rolledBack⟩⟩ := by
    rw [runSteps, s2, step_of_rollingBack env _ ⟨p, cand, true, false, none⟩ rfl rfl]
  have hfix : ∀ n, runSteps env (start s cand).2 (n + 3) =
      ⟨(cand, .ready) :: s.pools.map (fun b => if b.1 = cand then (b.1, PoolState.ready) else b),
        ⟨[("production", p), ("test", cand)]⟩, .Idle, some ⟨p, cand, true, false, some .rolledBack⟩⟩ := by
    intro n
    induction n with
    | zero => exact s3
    | succ m ih =>
      rw [show m + 1 + 3 = (m + 3) + 1 from rfl, runSteps, ih, step_of_idle env _ rfl]
  refine ⟨?_, ?_⟩
  · rw [cycleStates, range_seven]
    simp only [List.map_cons, List.map_nil]
    rw [r0, s1, s2, hfix 0, hfix 1, hfix 2, hfix 3]
  · rw [runCycle, hfix 3]

/-- The trace of a cycle that cuts over but fails the bake: production is
rebound to the previous pool on rollback and the cycle ends rolled-back. -/
theorem trace_bake_fail (s : Sys) (p q cand : Nat) (env : CycleEnv)
    (hidle : s.ctrl = .Idle)
    (hb : s.rt.bindings = [("production", p), ("test", q)])
    (hp : s.pools.lookup p = some .active)
    (hpc : p ≠ cand)
    (hprov : env.provisionOk = true)
    (hth : env.testHealthy = true)
    (hsup : ¬(supervise env.bakeVerdicts).1 = .Passed) :
    cycleStates env (start s cand).2 =
      [{ s with
          pools := (cand, .provisioning) :: s.pools
          ctrl := .Provisioning
          record := some ⟨p, cand, false, false, none⟩ },
       ⟨(cand, .ready) :: s.pools.map (fun b => if b.1 = cand then (b.1, PoolState.ready) else b),
          ⟨[("production", p), ("test", cand)]⟩, .TestValidating, some ⟨p, cand, true, false, none⟩⟩,
       ⟨(cand, .ready) :: s.pools.map (fun b => if b.1 = cand then (b.1, PoolState.ready) else b),
          ⟨[("production", cand), ("test", cand)]⟩, .CuttingOver, some ⟨p, cand, true, true, none⟩⟩,
       ⟨(cand, .ready) :: s.pools.map (fun b => if b.1 = cand then (b.1, PoolState.ready) else b),
          ⟨[("production", cand), ("test", cand)]⟩, .Baking, some ⟨p, cand, true, true, none⟩⟩,
       ⟨(cand, .ready) :: s.pools.map (fun b => if b.1 = cand then (b.1, PoolState.ready) else b),
          ⟨[("production", p), ("test", cand)]⟩, .RollingBack, some ⟨p, cand, true, true, none⟩⟩,
       ⟨(cand, .ready) :: s.pools.map (fun b => if b.1 = cand then (b.1, PoolState.ready) else b),
          ⟨[("production", p), ("test", cand)]⟩, .Idle, some ⟨p, cand, true, true, some .rolledBack⟩⟩,
       ⟨(cand, .ready) :: s.pools.map (fun b => if b.1 = cand then (b.1, PoolState.ready) else b),
          ⟨[("production", p), ("test", cand)]⟩, .Idle, some ⟨p, cand, true, true, some .rolledBack⟩⟩] ∧
    runCycle env (start s cand).2 =
      ⟨(cand, .ready) :: s.pools.map (fun b => if b.1 = cand then (b.1, PoolState.ready) else b),
        ⟨[("production", p), ("test", cand)]⟩, .Idle, some ⟨p, cand, true, true, some .rolledBack⟩⟩ := by
  have e0 := start_of_idle s p q cand hidle hb
  have hP1 : (s.pools.map (fun b => if b.1 = cand then (b.1, PoolState.ready) else b)).lookup p
      = some PoolState.active := by
    rw [lookup_update_ne _ _ _ _ hpc, hp]
  have r0 : runSteps env (start s cand).2 0 =
      { s with
        pools := (cand, .provisioning) :: s.pools
        ctrl := .Provisioning
        record := some ⟨p, cand, false, false, none⟩ } := by
    rw [runSteps, e0]
  have s1 : runSteps env (start s cand).2 1 =
      ⟨(cand, .ready) :: s.pools.map (fun b => if b.1 = cand then (b.1, PoolState.ready) else b),
        ⟨[("production", p), ("test", cand)]⟩, .TestValidating, some ⟨p, cand, true, false, none⟩⟩ := by
    rw [runSteps, r0, step_of_provisioning_ok env s p q cand hb hprov]
  have s2 : runSteps env (start s cand).2 2 =
      ⟨(cand, .ready) :: s.pools.map (fun b => if b.1 = cand then (b.1, PoolState.ready) else b),
        ⟨[("production", cand), ("test", cand)]⟩, .CuttingOver, some ⟨p, cand, true, true, none⟩⟩ := by
    rw [runSteps, s1, step_of_testValidating_ok env _ p cand hth]
  have s3 : runSteps env (start s cand).2 3 =
      ⟨(cand, .ready) :: s.pools.map (fun b => if b.1 = cand then (b.1, PoolState.ready) else b),
        ⟨[("production", cand), ("test", cand)]⟩, .Baking, some ⟨p, cand, true, true, none⟩⟩ := by
    rw [runSteps, s2, step_of_cuttingOver env _ ⟨p, cand, true, true, none⟩ rfl rfl]
  have s4 : runSteps env (start s cand).2 4 =
      ⟨(cand, .ready) :: s.pools.map (fun b => if b.1 = cand then (b.1, PoolState.ready) else b),
        ⟨[("production", p), ("test", cand)]⟩, .RollingBack, some ⟨p, cand, true, true, none⟩⟩ := by
    rw [runSteps, s3, step_of_baking_failed env _ p cand hsup hpc hP1]
  have s5 : runSteps env (start s cand).2 5 =
      ⟨(cand, .ready) :: s.pools.map (fun b => if b.1 = cand then (b.1, PoolState.ready) else b),
        ⟨[("production", p), ("test", cand)]⟩, .Idle, some ⟨p, cand, true, true, some .rolledBack⟩⟩ := by
    rw [runSteps, s4, step_of_rollingBack env _ ⟨p, cand, true, true, none⟩ rfl rfl]
  have s6 : runSteps env (start s cand).2 6 =
      ⟨(cand, .ready) :: s.pools.map (fun b => if b.1 = cand then (b.1, PoolState.ready) else b),
        ⟨[("production", p), ("test", cand)]⟩, .Idle, some ⟨p, cand, true, true, some .rolledBack⟩⟩ := by
    rw [runSteps, s5, step_of_idle env _ rfl]
  refine ⟨?_, ?_⟩
  · rw [cycleStates, range_seven]
    simp only [List.map_cons, List.map_nil]
    rw [r0, s1, s2, s3, s4, s5, s6]
  · rw [runCycle, s6]

/- ## Part 4: the claims -/

/-- C1: for every deployment cycle that completes with outcome finalized,
resolving the production route afterwards yields the candidate pool, and the
previous pool is in the "retired" lifecycle state. The cycle starts by
`start` from an Idle controller over a well-formed topology (a production
and a test route, the production pool active and distinct from the fresh
candidate id) and runs under an arbitrary environment. -/
theorem finalized_cycle_promotes_candidate (s : Sys) (p q cand : Nat) (env : CycleEnv)
    (hidle : s.ctrl = .Idle)
    (hb : s.rt.bindings = [("production", p), ("test", q)])
    (hp : s.pools.lookup p = some .active)
    (hpc : p ≠ cand)
    (hfin : cycleOutcome (runCycle env (start s cand).2) = some .finalized) :
    (runCycle env (start s cand).2).rt.resolve "production" = some cand ∧
    (runCycle env (start s cand).2).poolStateOf p = .retired := by
  by_cases hprov : env.provisionOk = true
  · by_cases hth : env.testHealthy = true
    · by_cases hsup : (supervise env.bakeVerdicts).1 = .Passed
      · have h := (trace_success s p q cand env hidle hb hp hpc hprov hth hsup).2
        rw [h]
        constructor
        · simp [RoutingTable.resolve, lookup_cons_eq]
        · have h1 : (p == cand) = false := beq_eq_false_iff_ne.mpr hpc
          have h2 : ((s.pools.map (fun b => if b.1 = cand then (b.1, PoolState.ready) else b)).map
              (fun b => if b.1 = p then (b.1, PoolState.retired) else b)).lookup p =
              some .retired := by
            rw [lookup_update_self, lookup_update_ne _ _ _ _ hpc, hp]
            rfl
          simp only [Sys.poolStateOf]
          rw [lookup_cons_eq, h1, if_neg Bool.false_ne_true, h2]
          rfl
      · have h := (trace_bake_fail s p q cand env hidle hb hp hpc hprov hth hsup).2
        rw [h] at hfin
        simp [cycleOutcome] at hfin
    · have hth' : env.testHealthy = false := by simpa using hth
      have h := (trace_test_fail s p q cand env hidle hb hprov hth').2
      rw [h] at hfin
      simp [cycleOutcome] at hfin
  · have hprov' : env.provisionOk = false := by simpa using hprov
    have h := (trace_provision_fail s p q cand env hidle hb hprov').2
    rw [h] at hfin
    simp [cycleOutcome] at hfin

/-- C2: for every deployment cycle that completes with outcome rolled-back,
resolving the production route after completion yields exactly the pool the
production route was bound to before `start` was called. -/
theorem rolled_back_cycle_restores_production (s : Sys) (p q cand : Nat) (env : CycleEnv)
    (hidle : s.ctrl = .Idle)
    (hb : s.rt.bindings = [("production", p), ("test", q)])
    (hp : s.pools.lookup p = some .active)
    (hpc : p ≠ cand)
    (hrb : cycleOutcome (runCycle env (start s cand).2) = some .rolledBack) :
    (runCycle env (start s cand).2).rt.resolve "production" = s.rt.resolve "production" := by
  have hres : s.rt.resolve "production" = some p := by
    simp [RoutingTable.resolve, hb, lookup_cons_eq]
  by_cases hprov : env.provisionOk = true
  · by_cases hth : env.testHealthy = true
    · by_cases hsup : (supervise env.bakeVerdicts).1 = .Passed
      · have h := (trace_success s p q cand env hidle hb hp hpc hprov hth hsup).2
        rw [h] at hrb
        simp [cycleOutcome] at hrb
      · have h := (trace_bake_fail s p q cand env hidle hb hp hpc hprov hth hsup).2
        rw [h, hres]
        simp [RoutingTable.resolve, lookup_cons_eq]
    · have hth' : env.testHealthy = false := by simpa using hth
      have h := (trace_test_fail s p q cand env hidle hb hprov hth').2
      rw [h, hres]
      simp [RoutingTable.resolve, lookup_cons_eq]
  · have hprov' : env.provisionOk = false := by simpa using hprov
    have h := (trace_provision_fail s p q cand env hidle hb hprov').2
    rw [h]

/-- C3: at every state a deployment cycle reaches, each of the two routes
references exactly one pool, and the pool the production route resolves to
is never in the "retired" lifecycle state. -/
theorem cycle_preserves_route_invariant (s : Sys) (p q cand : Nat) (env : CycleEnv)
    (hidle : s.ctrl = .Idle)
    (hb : s.rt.bindings = [("production", p), ("test", q)])
    (hp : s.pools.lookup p = some .active)
    (hpc : p ≠ cand) :
    (cycleStates env (start s cand).2).all routeInvariant = true := by
  have h1 : (p == cand) = false := beq_eq_false_iff_ne.mpr hpc
  by_cases hprov : env.provisionOk = true
  · by_cases hth : env.testHealthy = true
    · by_cases hsup : (supervise env.bakeVerdicts).1 = .Passed
      · rw [(trace_success s p q cand env hidle hb hp hpc hprov hth hsup).1]
        simp [routeInvariant, RoutingTable.resolve, Sys.poolStateOf, lookup_cons_eq, hb,
          h1, lookup_update_self, lookup_update_ne _ _ _ _ hpc, hp]
      · rw [(trace_bake_fail s p q cand env hidle hb hp hpc hprov hth hsup).1]
        simp [routeInvariant, RoutingTable.resolve, Sys.poolStateOf, lookup_cons_eq, hb,
          h1, lookup_update_ne _ _ _ _ hpc, hp]
    · have hth' : env.testHealthy = false := by simpa using hth
      rw [(trace_test_fail s p q cand env hidle hb hprov hth').1]
      simp [routeInvariant, RoutingTable.resolve, Sys.poolStateOf, lookup_cons_eq, hb,
        h1, lookup_update_ne _ _ _ _ hpc, hp]
  · have hprov' : env.provisionOk = false := by simpa using hprov
    rw [(trace_provision_fail s p q cand env hidle hb hprov').1]
    simp [routeInvariant, RoutingTable.resolve, Sys.poolStateOf, lookup_cons_eq, hb,
      h1, hp]

/-- C4: invoking start while the controller is in any non-Idle state fails
with DeploymentInProgressError and returns the system unchanged, leaving the
in-progress cycle's DeploymentRecord, pools and route bindings intact. -/
theorem second_start_rejected (s : Sys) (cand : Nat) (h : s.ctrl ≠ .Idle) :
    start s cand = (some .DeploymentInProgressError, s) := by
  simp [start, h]

theorem supervise_passed_iff (vs : List Verdict) :
    (supervise vs).1 = .Passed ↔ ∀ v ∈ vs, v = .healthy := by
  induction vs with
  | nil => simp [supervise]
  | cons v rest ih =>
    by_cases hv : v = .healthy
    · subst hv
      simp [supervise, ih]
    · simp [supervise, hv]

theorem supervise_fail_prefix (pre : List Verdict) (bad : Verdict) (rest : List Verdict)
    (hpre : ∀ v ∈ pre, v = .healthy) (hbad : bad ≠ .healthy) :
    supervise (pre ++ bad :: rest) = (.Failed, pre.length + 1) := by
  induction pre with
  | nil => simp [supervise, hbad]
  | cons v t ih =>
    have hv : v = .healthy := hpre v (by simp)
    subst hv
    have ht : ∀ w ∈ t, w = .healthy := fun w hw => hpre w (by simp [hw])
    simp [supervise, ih ht]

/-- C5: `supervise` returns Passed iff every poll through the full bake
window was healthy; on the first non-healthy verdict it returns Failed
having performed exactly the polls up to and including that verdict (none of
the remaining window is consumed); and a `MonitorUnavailableError` verdict
anywhere forces the Failed outcome. -/
theorem supervise_spec (vs : List Verdict) :
    ((supervise vs).1 = .Passed ↔ ∀ v ∈ vs, v = .healthy) ∧
    (∀ pre bad rest, vs = pre ++ bad :: rest → (∀ v ∈ pre, v = .healthy) →
      bad ≠ .healthy → supervise vs = (.Failed, pre.length + 1)) ∧
    (∀ v ∈ vs, v = .monitorUnavailable → (supervise vs).1 = .Failed) := by
  refine ⟨supervise_passed_iff vs, ?_, ?_⟩
  · intro pre bad rest heq hpre hbad
    rw [heq]
    exact supervise_fail_prefix pre bad rest hpre hbad
  · intro v hv hm
    cases hout : (supervise vs).1 with
    | Passed =>
      have := (supervise_passed_iff vs).mp hout v hv
      rw [this] at hm
      exact absurd hm (by decide)
    | Failed => rfl

/-- C6: `RoutingTable.bind` is idempotent, atomically replaces the route's
single binding (the bound route resolves to the new pool, all other routes
are untouched, and there is no state in which the route resolves to no
pool), fails with RouteNotFoundError for an unknown route, and fails with
InvalidTargetError when the target pool is retired. -/
theorem bind_routing_spec (ps : Nat → PoolState) (rt : RoutingTable)
    (route : String) (pid : Nat) :
    (∀ rt2, rt.bind ps route pid = .ok rt2 → rt2.bind ps route pid = .ok rt2) ∧
    (∀ rt2, rt.bind ps route pid = .ok rt2 →
      rt2.resolve route = some pid ∧
      ∀ other, other ≠ route → rt2.resolve other = rt.resolve other) ∧
    (rt.resolve route = none → rt.bind ps route pid = .error .RouteNotFoundError) ∧
    (∀ old, rt.resolve route = some old → ps pid = .retired →
      rt.bind ps route pid = .error .InvalidTargetError) := by
  cases hl : rt.bindings.lookup route with
  | none =>
    refine ⟨?_, ?_, ?_, ?_⟩
    · intro rt2 h
      rw [RoutingTable.bind, hl] at h
      exact absurd h (by simp)
    · intro rt2 h
      rw [RoutingTable.bind, hl] at h
      exact absurd h (by simp)
    · intro _
      rw [RoutingTable.bind, hl]
    · intro old hsome _
      rw [RoutingTable.resolve, hl] at hsome
      exact absurd hsome (by simp)
  | some x =>
    by_cases hret : ps pid = .retired
    · refine ⟨?_, ?_, ?_, ?_⟩
      · intro rt2 h
        rw [RoutingTable.bind, hl, if_pos hret] at h
        exact absurd h (by simp)
      · intro rt2 h
        rw [RoutingTable.bind, hl, if_pos hret] at h
        exact absurd h (by simp)
      · intro hnone
        rw [RoutingTable.resolve, hl] at hnone
        exact absurd hnone (by simp)
      · intro old _ _
        rw [RoutingTable.bind, hl, if_pos hret]
    · have hbind : rt.bind ps route pid =
          .ok ⟨rt.bindings.map (fun b => if b.1 = route then (b.1, pid) else b)⟩ := by
        rw [RoutingTable.bind, hl, if_neg hret]
      refine ⟨?_, ?_, ?_, ?_⟩
      · intro rt2 h
        rw [hbind] at h
        injection h with h
        subst h
        have hl2 : (rt.bindings.map
            (fun b => if b.1 = route then (b.1, pid) else b)).lookup route = some pid := by
          rw [lookup_update_self, hl]
          rfl
        rw [RoutingTable.bind]
        rw [show (⟨rt.bindings.map (fun b => if b.1 = route then (b.1, pid) else b)⟩ :
            RoutingTable).bindings =
            rt.bindings.map (fun b => if b.1 = route then (b.1, pid) else b) from rfl]
        rw [hl2, if_neg hret, update_idem]
      · intro rt2 h
        rw [hbind] at h
        injection h with h
        subst h
        refine ⟨?_, ?_⟩
        · rw [RoutingTable.resolve]
          rw [show (⟨rt.bindings.map (fun b => if b.1 = route then (b.1, pid) else b)⟩ :
              RoutingTable).bindings =
              rt.bindings.map (fun b => if b.1 = route then (b.1, pid) else b) from rfl]
          rw [lookup_update_self, hl]
          rfl
        · intro other hne
          rw [RoutingTable.resolve, RoutingTable.resolve]
          exact lookup_update_ne _ _ _ _ hne
      · intro hnone
        rw [RoutingTable.resolve, hl] at hnone
        exact absurd hnone (by simp)
      · intro old _ hr
        exact absurd hr hret

/-- C7: the bake observation window configured by the source is the fixed
literal `cdk.Duration.minutes(2)` — exactly 2 minutes (120 seconds). -/
theorem bake_time_is_two_minutes :
    service.bakeTime = Duration.minutes 2 ∧ service.bakeTime.seconds = 120 :=
  ⟨rfl, rfl⟩

/-- C8: in the initial declared state, the production route (listener port
80, rule priority 1, path pattern "*") forwards to the blue target group and
the test route (listener port 8080, rule priority 1, path pattern "*")
forwards to the green target group; blue is the service's primary (initial
production) target group and green the alternate. -/
theorem initial_routes_blue_green :
    albListener.port = 80 ∧
    albListenerRule.listenerPort = 80 ∧
    albListenerRule.priority = 1 ∧
    albListenerRule.pathPatterns = ["*"] ∧
    albListenerRule.action = .forward [appTargetGroupBlue.targetGroupName] ∧
    albTestListener.port = 8080 ∧
    albTestListenerRule.listenerPort = 8080 ∧
    albTestListenerRule.priority = 1 ∧
    albTestListenerRule.pathPatterns = ["*"] ∧
    albTestListenerRule.action = .forward [appTargetGroupGreen.targetGroupName] ∧
    primaryTargetGroup = appTargetGroupBlue.targetGroupName ∧
    alternateTarget.alternateTargetGroup = appTargetGroupGreen.targetGroupName ∧
    alternateTarget.productionListenerRule = albListenerRule ∧
    alternateTarget.testListenerRule = albTestListenerRule := by
  decide

/-- C9: on both the production and the test listener, a request that matches
no listener rule is answered by the default action — a fixed HTTP 404
response with content type text/plain and body "Not Found" — rather than
being forwarded to any pool. -/
theorem unmatched_request_default_404 (rules : List ListenerRule) (req : String)
    (h : ∀ rule ∈ rules, ruleMatches rule req = false) :
    dispatch albListener rules req = .fixedResponse 404 "text/plain" "Not Found" ∧
    dispatch albTestListener rules req = .fixedResponse 404 "text/plain" "Not Found" := by
  have hf : rules.find? (fun rule => ruleMatches rule req) = none := by
    rw [List.find?_eq_none]
    intro x hx
    simp [h x hx]
  constructor <;> simp [dispatch, hf, albListener, albTestListener]

/-- C10: the blue and green target groups are declared with identical
health-check parameters — protocol HTTP, path "/", port "80" — and both have
target type IP, so the candidate generation is judged by exactly the same
health criteria as the production generation. -/
theorem blue_green_health_checks_identical :
    appTargetGroupBlue.healthCheck = appTargetGroupGreen.healthCheck ∧
    appTargetGroupBlue.healthCheck = { path := "/", port := "80", protocol := "HTTP" } ∧
    appTargetGroupBlue.targetType = "IP" ∧
    appTargetGroupGreen.targetType = "IP" := by
  decide

/- ## Part 5: concrete witnesses -/

/-- Witness for C1: from the stack's initial topology (blue pool 0 on
production, green pool 1 on test) a cycle with candidate pool 2 under an
all-healthy bake finalizes; the production route then resolves to 2 and
pool 0 is retired. -/
theorem finalized_cycle_promotes_candidate_witness :
    cycleOutcome (runCycle ⟨true, true, [.healthy, .healthy]⟩
      (start ⟨[(0, .active), (1, .ready)], ⟨[("production", 0), ("test", 1)]⟩, .Idle, none⟩ 2).2) =
      some .finalized ∧
    (runCycle ⟨true, true, [.healthy, .healthy]⟩
      (start ⟨[(0, .active), (1, .ready)], ⟨[("production", 0), ("test", 1)]⟩, .Idle, none⟩ 2).2).rt.resolve
        "production" = some 2 ∧
    (runCycle ⟨true, true, [.healthy, .healthy]⟩
      (start ⟨[(0, .active), (1, .ready)], ⟨[("production", 0), ("test", 1)]⟩, .Idle, none⟩ 2).2).poolStateOf
        0 = .retired := by
  have h := finalized_cycle_promotes_candidate
    ⟨[(0, .active), (1, .ready)], ⟨[("production", 0), ("test", 1)]⟩, .Idle, none⟩
    0 1 2 ⟨true, true, [.healthy, .healthy]⟩ rfl rfl (by decide) (by decide) (by decide)
  exact ⟨by decide, h.1, h.2⟩

/-- Witness for C2: the same topology with a bake that turns unhealthy rolls
back, and the production route resolves to pool 0 exactly as before start. -/
theorem rolled_back_cycle_restores_production_witness :
    cycleOutcome (runCycle ⟨true, true, [.healthy, .unhealthy]⟩
      (start ⟨[(0, .active), (1, .ready)], ⟨[("production", 0), ("test", 1)]⟩, .Idle, none⟩ 2).2) =
      some .rolledBack ∧
    (runCycle ⟨true, true, [.healthy, .unhealthy]⟩
      (start ⟨[(0, .active), (1, .ready)], ⟨[("production", 0), ("test", 1)]⟩, .Idle, none⟩ 2).2).rt.resolve
        "production" =
      RoutingTable.resolve ⟨[("production", 0), ("test", 1)]⟩ "production" := by
  have h := rolled_back_cycle_restores_production
    ⟨[(0, .active), (1, .ready)], ⟨[("production", 0), ("test", 1)]⟩, .Idle, none⟩
    0 1 2 ⟨true, true, [.healthy, .unhealthy]⟩ rfl rfl (by decide) (by decide) (by decide)
  exact ⟨by decide, h⟩

/-- Witness for C3: every state of the failing-bake cycle from the initial
topology satisfies the routing invariant. -/
theorem cycle_preserves_route_invariant_witness :
    ((cycleStates ⟨true, true, [.healthy, .unhealthy]⟩
      (start ⟨[(0, .active), (1, .ready)], ⟨[("production", 0), ("test", 1)]⟩, .Idle, none⟩ 2).2).all
        routeInvariant) = true :=
  cycle_preserves_route_invariant
    ⟨[(0, .active), (1, .ready)], ⟨[("production", 0), ("test", 1)]⟩, .Idle, none⟩
    0 1 2 ⟨true, true, [.healthy, .unhealthy]⟩ rfl rfl (by decide) (by decide)

/-- Witness for C4: starting a deployment while the controller is Baking is
rejected and the system is returned unchanged. -/
theorem second_start_rejected_witness :
    (⟨[(0, .active)], ⟨[("production", 0)]⟩, .Baking,
        some ⟨0, 1, true, true, none⟩⟩ : Sys).ctrl ≠ .Idle ∧
    start (⟨[(0, .active)], ⟨[("production", 0)]⟩, .Baking, some ⟨0, 1, true, true, none⟩⟩ : Sys) 5 =
      (some .DeploymentInProgressError,
        ⟨[(0, .active)], ⟨[("production", 0)]⟩, .Baking, some ⟨0, 1, true, true, none⟩⟩) :=
  ⟨by decide,
   second_start_rejected
     ⟨[(0, .active)], ⟨[("production", 0)]⟩, .Baking, some ⟨0, 1, true, true, none⟩⟩ 5 (by decide)⟩

/-- Witness for C5: with a healthy first poll and an unhealthy second one
the supervisor fails after exactly two polls, leaving the rest of the window
unconsumed. -/
theorem supervise_spec_witness :
    supervise [.healthy, .unhealthy, .healthy] = (.Failed, 2) :=
  (supervise_spec [.healthy, .unhealthy, .healthy]).2.1
    [.healthy] .unhealthy [.healthy] rfl (by decide) (by decide)

/-- Witness for C6: rebinding production to pool 2 is idempotent on a
concrete table; the bound route resolves to 2; binding an unknown route and
binding a retired pool fail with their respective errors. -/
theorem bind_routing_spec_witness :
    RoutingTable.bind (fun _ => .ready) ⟨[("production", 2), ("test", 1)]⟩ "production" 2 =
      .ok ⟨[("production", 2), ("test", 1)]⟩ ∧
    RoutingTable.resolve ⟨[("production", 2), ("test", 1)]⟩ "production" = some 2 ∧
    RoutingTable.bind (fun _ => .ready) ⟨[("production", 0), ("test", 1)]⟩ "missing" 2 =
      .error .RouteNotFoundError ∧
    RoutingTable.bind (fun _ => .retired) ⟨[("production", 0), ("test", 1)]⟩ "production" 2 =
      .error .InvalidTargetError := by
  refine ⟨?_, ?_, ?_, ?_⟩
  · exact (bind_routing_spec (fun _ => .ready) ⟨[("production", 0), ("test", 1)]⟩
      "production" 2).1 ⟨[("production", 2), ("test", 1)]⟩ rfl
  · exact ((bind_routing_spec (fun _ => .ready) ⟨[("production", 0), ("test", 1)]⟩
      "production" 2).2.1 ⟨[("production", 2), ("test", 1)]⟩ rfl).1
  · exact (bind_routing_spec (fun _ => .ready) ⟨[("production", 0), ("test", 1)]⟩
      "missing" 2).2.2.1 (by decide)
  · exact (bind_routing_spec (fun _ => .retired) ⟨[("production", 0), ("test", 1)]⟩
      "production" 2).2.2.2 0 (by decide) (by decide)

/-- Witness for C9: with no rules installed, a request on either listener
receives the fixed 404 response. -/
theorem unmatched_request_default_404_witness :
    dispatch albListener [] "/health" = .fixedResponse 404 "text/plain" "Not Found" ∧
    dispatch albTestListener [] "/health" = .fixedResponse 404 "text/plain" "Not Found" :=
  unmatched_request_default_404 [] "/health" (by simp)

end BlueGreen
